import Mathlib

/-!
Verification development for the Bitcoin-Inheritance repository.

The Go sources are shallowly embedded: byte strings become `List Nat`
(each element a byte value), Go `int64` arithmetic becomes `Int`
arithmetic reduced into the signed 64-bit range where the source can
overflow, and fallible operations return `Except`.  External library
primitives (SHA-256, RIPEMD-160, ECDSA signing, the BIP-143 digest)
are taken as function parameters: the claims under study depend only
on their output shapes, never on their internals.
-/

namespace BitcoinInheritance

set_option maxRecDepth 16000

/-! ### Go machine-integer semantics

Go's `int64` wraps on overflow (two's complement).  `wrap64` reduces a
mathematical integer into the signed 64-bit window; the bitwise
operators work on the unsigned 64-bit representative. -/

/-- Reduce an integer into the signed 64-bit range, as Go `int64` overflow does. -/
def wrap64 (x : Int) : Int :=
  (x + 2 ^ 63) % 2 ^ 64 - 2 ^ 63

/-- Go `int64` addition (wrapping). -/
def int64Add (a b : Int) : Int := wrap64 (a + b)

/-- Go `int64` subtraction (wrapping). -/
def int64Sub (a b : Int) : Int := wrap64 (a - b)

/-- Go `int64` multiplication (wrapping). -/
def int64Mul (a b : Int) : Int := wrap64 (a * b)

/-- Go `int64` division: truncation toward zero (`Int.tdiv`), wrapped
(the only overflowing case is `MinInt64 / -1`). -/
def int64Div (a b : Int) : Int := wrap64 (Int.tdiv a b)

/-- Unsigned 64-bit representative of an `int64` value. -/
def toUnsigned64 (x : Int) : Nat :=
  (x % 2 ^ 64).toNat

/-- Read an unsigned 64-bit representative back as a signed `int64` value. -/
def ofUnsigned64 (n : Nat) : Int :=
  if n < 2 ^ 63 then (n : Int) else (n : Int) - 2 ^ 64

/-- Go `int64` bitwise OR (two's complement). -/
def int64Or (a b : Int) : Int :=
  ofUnsigned64 (toUnsigned64 a ||| toUnsigned64 b)

/-- Go `int64` bitwise AND (two's complement). -/
def int64And (a b : Int) : Int :=
  ofUnsigned64 (toUnsigned64 a &&& toUnsigned64 b)

/-- Go conversion `uint32(x)` of an `int64` value: the low 32 bits. -/
def uint32Of (x : Int) : Nat :=
  (x % 2 ^ 32).toNat

/-! ### btcd `txscript.ScriptBuilder` encoding

Faithful translation of the library routines the repository calls:
`AddData` (canonical data push), `scriptNum.Bytes` (minimal signed
little-endian script-number serialization) and `AddInt64`. -/

/-- Little-endian base-256 digits of a natural number, least significant
first (the `for n > 0` loop of `scriptNum.Bytes`).  The fuel argument
makes the recursion structural; 20 digits cover every `int64` magnitude. -/
def magnitudeBytes : Nat → Nat → List Nat
  | 0, _ => []
  | fuel + 1, n => if n = 0 then [] else n % 256 :: magnitudeBytes fuel (n / 256)

/-- btcd `scriptNum.Bytes`: minimal little-endian signed-magnitude
serialization of a script number. -/
def scriptNumBytes (v : Int) : List Nat :=
  if v = 0 then []
  else
    let isNegative := v < 0
    let result := magnitudeBytes 20 v.natAbs
    match result.getLast? with
    | none => []
    | some last =>
      if last &&& 0x80 ≠ 0 then
        result ++ [if isNegative then 0x80 else 0x00]
      else if isNegative then
        result.dropLast ++ [last ||| 0x80]
      else
        result

/-- btcd `ScriptBuilder.AddData` (canonical form): the push opcodes
emitted in front of (or instead of) the raw data. -/
def canonicalDataPush (data : List Nat) : List Nat :=
  if data.length = 0 ∨ (data.length = 1 ∧ data.headD 0 = 0) then [0x00]
  else if data.length = 1 ∧ data.headD 0 ≤ 16 then [0x50 + data.headD 0]
  else if data.length = 1 ∧ data.headD 0 = 0x81 then [0x4f]
  else if data.length < 0x4c then data.length :: data
  else if data.length ≤ 0xff then 0x4c :: data.length :: data
  else if data.length ≤ 0xffff then
    0x4d :: data.length % 256 :: data.length / 256 :: data
  else
    0x4e :: data.length % 256 :: data.length / 256 % 256 ::
      data.length / 65536 % 256 :: data.length / 16777216 % 256 :: data

/-- btcd `ScriptBuilder.AddInt64`: small values become the dedicated
small-integer opcodes, everything else a canonical push of the minimal
script-number serialization. -/
def addInt64Bytes (v : Int) : List Nat :=
  if v = 0 then [0x00]
  else if v = -1 ∨ (1 ≤ v ∧ v ≤ 16) then [(0x50 + v).toNat]
  else canonicalDataPush (scriptNumBytes v)

/-- One builder call of `buildRedeemScript`, kept at the opcode level. -/
inductive ScriptTok where
  | opIf
  | opCheckSig
  | opElse
  | opCSV
  | opDrop
  | opEndIf
  | pushData (data : List Nat)
  | pushNumber (n : Int)
deriving DecidableEq

/-- Byte encoding of one builder call (btcd `AddOp` / `AddData` / `AddInt64`). -/
def tokBytes : ScriptTok → List Nat
  | .opIf => [0x63]
  | .opCheckSig => [0xac]
  | .opElse => [0x67]
  | .opCSV => [0xb2]
  | .opDrop => [0x75]
  | .opEndIf => [0x68]
  | .pushData d => canonicalDataPush d
  | .pushNumber n => addInt64Bytes n

/-- The exact sequence of builder calls made by `buildRedeemScript`
(script/script.go): OP_IF, push owner key, OP_CHECKSIG, OP_ELSE,
AddInt64 timelock, OP_CHECKSEQUENCEVERIFY, OP_DROP, push inheritor key,
OP_CHECKSIG, OP_ENDIF. -/
def redeemScriptToks (ownerPubKey inheritorPubKey : List Nat)
    (relativeTimelock : Int) : List ScriptTok :=
  [.opIf, .pushData ownerPubKey, .opCheckSig, .opElse,
   .pushNumber relativeTimelock, .opCSV, .opDrop,
   .pushData inheritorPubKey, .opCheckSig, .opEndIf]

/-- `buildRedeemScript` (script/script.go): the bytes produced by the
script builder, i.e. the concatenated encodings of the builder calls.
For the argument sizes the repository uses the builder never reaches
its 10000-byte error limit, so the result is total. -/
def buildRedeemScript (ownerPubKey inheritorPubKey : List Nat)
    (relativeTimelock : Int) : List Nat :=
  ((redeemScriptToks ownerPubKey inheritorPubKey relativeTimelock).map tokBytes).flatten

/-- `calculateRelativeTimelock` (script/script.go): days to BIP-68
encoding, in Go `int64` arithmetic: `days * 24 * 60 * 60`, truncating
division by 512, then OR with `0x400000`. -/
def calculateRelativeTimelock (days : Int) : Int :=
  let totalSeconds := int64Mul (int64Mul (int64Mul days 24) 60) 60
  let intervals := int64Div totalSeconds 512
  int64Or intervals 0x400000

/-! ### The inheritance script record (script/script.go) -/

/-- `InheritanceScript` (script/script.go).  The `ChainParams` pointer
is omitted: it only selects the human-readable address prefix, which no
claim under study touches. -/
structure InheritanceScript where
  ownerPubKey : List Nat
  inheritorPubKey : List Nat
  relativeTimelock : Int
  redeemScript : List Nat
deriving DecidableEq

/-- `NewInheritanceScript` (script/script.go): encode the timelock,
build the redeem script, store everything.  The only error path of the
source is the script builder's size limit, unreachable here, so the
construction is total. -/
def NewInheritanceScript (ownerPubKey inheritorPubKey : List Nat)
    (timelockDays : Int) : InheritanceScript :=
  let relativeTimelock := calculateRelativeTimelock timelockDays
  { ownerPubKey := ownerPubKey
    inheritorPubKey := inheritorPubKey
    relativeTimelock := relativeTimelock
    redeemScript := buildRedeemScript ownerPubKey inheritorPubKey relativeTimelock }

/-- Validation failures of `ValidateScript`; each constructor stands for
the corresponding `fmt.Errorf` message of the source (the two key-length
messages, owner and inheritor, are merged into one constructor). -/
inductive ScriptValidationError where
  | emptyScript
  | invalidKeyLength
  | nonPositiveTimelock
deriving DecidableEq

/-- `ValidateScript` (script/script.go), with the source's check order:
empty script, owner key length, inheritor key length, timelock sign. -/
def ValidateScript (s : InheritanceScript) : Except ScriptValidationError Unit :=
  if s.redeemScript.length = 0 then .error .emptyScript
  else if s.ownerPubKey.length ≠ 33 then .error .invalidKeyLength
  else if s.inheritorPubKey.length ≠ 33 then .error .invalidKeyLength
  else if s.relativeTimelock ≤ 0 then .error .nonPositiveTimelock
  else .ok ()

/-- `GetScriptHash` (script/script.go): single SHA-256 of the redeem
script.  The hash primitive is a parameter of the embedding. -/
def GetScriptHash (sha256 : List Nat → List Nat)
    (s : InheritanceScript) : List Nat :=
  sha256 s.redeemScript

/-- `GetScriptPubKey` (script/script.go): the P2WSH output script for
the redeem script.  `PayToAddrScript` on a witness-script-hash address
emits OP_0 followed by the canonical push of the 32-byte program. -/
def GetScriptPubKey (sha256 : List Nat → List Nat)
    (s : InheritanceScript) : List Nat :=
  0x00 :: canonicalDataPush (GetScriptHash sha256 s)

/-! ### Wire transaction model (btcd `wire`) -/

/-- `wire.OutPoint`: previous transaction hash plus output index. -/
structure OutPoint where
  hash : List Nat
  index : Nat
deriving DecidableEq

/-- `wire.TxIn`. -/
structure TxIn where
  previousOutPoint : OutPoint
  signatureScript : List Nat
  witness : List (List Nat)
  sequence : Nat
deriving DecidableEq

/-- `wire.TxOut`. -/
structure TxOut where
  value : Int
  pkScript : List Nat
deriving DecidableEq

/-- `wire.MsgTx`. -/
structure MsgTx where
  version : Int
  txIn : List TxIn
  txOut : List TxOut
  lockTime : Nat
deriving DecidableEq

/-- `wire.MaxTxInSequenceNum`. -/
def maxTxInSequenceNum : Nat := 0xffffffff

/-- `wire.TxVersion`. -/
def txVersion : Int := 1

/-- `wire.NewMsgTx`: empty input and output lists, zero lock time. -/
def newMsgTx (version : Int) : MsgTx :=
  { version := version, txIn := [], txOut := [], lockTime := 0 }

/-- `wire.NewTxIn`: the sequence field defaults to `MaxTxInSequenceNum`. -/
def newTxIn (prevOut : OutPoint) (signatureScript : List Nat)
    (witness : List (List Nat)) : TxIn :=
  { previousOutPoint := prevOut
    signatureScript := signatureScript
    witness := witness
    sequence := maxTxInSequenceNum }

/-- `transaction.UTXO` (transaction/transaction.go). -/
structure UTXO where
  txHash : List Nat
  vout : Nat
  amount : Int
  pkScript : List Nat
deriving DecidableEq

/-- Failure of the two withdraw-transaction builders; stands for the
source's "insufficient funds: fee exceeds UTXO amount" error. -/
inductive TxBuildError where
  | insufficientFunds
deriving DecidableEq

/-- `BuildOwnerWithdrawTx` (transaction/transaction.go).  The
destination script is taken directly (the source derives it from the
destination address with the library's `PayToAddrScript`, after the
funds check); the `redeemScript` parameter is present and unused,
as in the source. -/
def BuildOwnerWithdrawTx (fee : Int) (contractUTXO : UTXO)
    (destinationScript redeemScript : List Nat) : Except TxBuildError MsgTx :=
  let tx := newMsgTx txVersion
  let txIn := newTxIn { hash := contractUTXO.txHash, index := contractUTXO.vout } [] []
  let tx := { tx with txIn := tx.txIn ++ [txIn] }
  let outputAmount := int64Sub contractUTXO.amount fee
  if outputAmount ≤ 0 then .error .insufficientFunds
  else
    let tx := { tx with txOut := tx.txOut ++ [{ value := outputAmount, pkScript := destinationScript }] }
    .ok tx

/-- `BuildInheritorWithdrawTx` (transaction/transaction.go): as the
owner builder, but the input's sequence is assigned
`uint32(relativeTimelock)` before the input is added. -/
def BuildInheritorWithdrawTx (fee : Int) (contractUTXO : UTXO)
    (destinationScript redeemScript : List Nat) (relativeTimelock : Int) :
    Except TxBuildError MsgTx :=
  let tx := newMsgTx txVersion
  let txIn := newTxIn { hash := contractUTXO.txHash, index := contractUTXO.vout } [] []
  let txIn := { txIn with sequence := uint32Of relativeTimelock }
  let tx := { tx with txIn := tx.txIn ++ [txIn] }
  let outputAmount := int64Sub contractUTXO.amount fee
  if outputAmount ≤ 0 then .error .insufficientFunds
  else
    let tx := { tx with txOut := tx.txOut ++ [{ value := outputAmount, pkScript := destinationScript }] }
    .ok tx

/-! ### Signing (transaction/transaction.go)

The BIP-143 digest and deterministic ECDSA are library primitives and
enter as parameters (`sigHashFn`, `ecdsaSign`), as do SHA-256 and
RIPEMD-160. -/

/-- Failure of `txscript.CalcWitnessSigHash`: the input index is out of
range (the only failure reachable from the repository's call sites). -/
inductive SignError where
  | inputIndexOutOfRange
deriving DecidableEq

/-- `txscript.CalcWitnessSigHash` for the version-0 witness digest: an
index check, then the digest of (script code, transaction, input index,
input amount). -/
def CalcWitnessSigHash (sigHashFn : List Nat → MsgTx → Nat → Int → List Nat)
    (script : List Nat) (tx : MsgTx) (idx : Nat) (amt : Int) :
    Except SignError (List Nat) :=
  if tx.txIn.length ≤ idx then .error .inputIndexOutOfRange
  else .ok (sigHashFn script tx idx amt)

/-- `btcutil.Hash160`: RIPEMD-160 of SHA-256. -/
def hash160 (sha256 ripemd160 : List Nat → List Nat) (data : List Nat) : List Nat :=
  ripemd160 (sha256 data)

/-- The script both signers register as the previous output's script:
`NewScriptBuilder().AddOp(OP_0).AddData(btcutil.Hash160(redeemScript))`. -/
def signerPrevOutScript (sha256 ripemd160 : List Nat → List Nat)
    (redeemScript : List Nat) : List Nat :=
  0x00 :: canonicalDataPush (hash160 sha256 ripemd160 redeemScript)

/-- `txscript.SigHashAll`. -/
def sigHashAll : Nat := 0x01

/-- The write `tx.TxIn[0].Witness = witness` of the two signers. -/
def setFirstWitness (tx : MsgTx) (w : List (List Nat)) : MsgTx :=
  { tx with txIn := match tx.txIn with
      | [] => []
      | txIn0 :: rest => { txIn0 with witness := w } :: rest }

/-- `SignOwnerTransaction` (transaction/transaction.go): register the
hash160-based previous-output script, compute the witness signature
hash over the redeem script and the UTXO amount, sign, append the
sighash-type byte, and install the witness stack
`[signature bytes, {OP_1}, redeemScript]` on input 0. -/
def SignOwnerTransaction (sha256 ripemd160 : List Nat → List Nat)
    (sigHashFn : List Nat → MsgTx → Nat → Int → List Nat)
    (ecdsaSign : List Nat → List Nat → List Nat)
    (tx : MsgTx) (contractUTXO : UTXO)
    (redeemScript ownerPrivateKey : List Nat) : Except SignError MsgTx :=
  let p2wshScript := signerPrevOutScript sha256 ripemd160 redeemScript
  let _ := (contractUTXO.amount, p2wshScript)
  match CalcWitnessSigHash sigHashFn redeemScript tx 0 contractUTXO.amount with
  | .error e => .error e
  | .ok sigHash =>
    let sigBytes := ecdsaSign ownerPrivateKey sigHash ++ [sigHashAll]
    .ok (setFirstWitness tx [sigBytes, [0x51], redeemScript])

/-- `SignInheritorTransaction` (transaction/transaction.go): as the
owner signer, but the installed witness stack is
`[signature bytes, {OP_0}, redeemScript]`. -/
def SignInheritorTransaction (sha256 ripemd160 : List Nat → List Nat)
    (sigHashFn : List Nat → MsgTx → Nat → Int → List Nat)
    (ecdsaSign : List Nat → List Nat → List Nat)
    (tx : MsgTx) (contractUTXO : UTXO)
    (redeemScript inheritorPrivateKey : List Nat) : Except SignError MsgTx :=
  let p2wshScript := signerPrevOutScript sha256 ripemd160 redeemScript
  let _ := (contractUTXO.amount, p2wshScript)
  match CalcWitnessSigHash sigHashFn redeemScript tx 0 contractUTXO.amount with
  | .error e => .error e
  | .ok sigHash =>
    let sigBytes := ecdsaSign inheritorPrivateKey sigHash ++ [sigHashAll]
    .ok (setFirstWitness tx [sigBytes, [0x00], redeemScript])

/-! ### Transaction validation (transaction/transaction.go) -/

/-- Failures of `ValidateTransaction`; each constructor stands for the
corresponding `fmt.Errorf` message of the source. -/
inductive TxValidationError where
  | nilTransaction
  | noInputs
  | noOutputs
  | negativeOutputValue
deriving DecidableEq

/-- The accumulation `totalOut += out.Value` of `ValidateTransaction`,
in Go `int64` arithmetic. -/
def sumOutputValues (tx : MsgTx) : Int :=
  tx.txOut.foldl (fun totalOut out => int64Add totalOut out.value) 0

/-- `ValidateTransaction` (transaction/transaction.go): nil check,
input and output presence, and the sign of the summed output value. -/
def ValidateTransaction : Option MsgTx → Except TxValidationError Unit
  | none => .error .nilTransaction
  | some tx =>
    if tx.txIn.length = 0 then .error .noInputs
    else if tx.txOut.length = 0 then .error .noOutputs
    else if sumOutputValues tx < 0 then .error .negativeOutputValue
    else .ok ()

/-! ### Shared arithmetic and bitwise lemmas -/

theorem wrap64_eq_self {x : Int} (h1 : -(2 ^ 63) ≤ x) (h2 : x < 2 ^ 63) :
    wrap64 x = x := by
  unfold wrap64
  omega

theorem toUnsigned64_lt (x : Int) : toUnsigned64 x < 2 ^ 64 := by
  unfold toUnsigned64
  omega

theorem toUnsigned64_of_lt {x : Int} (h0 : 0 ≤ x) (h : x < 2 ^ 64) :
    toUnsigned64 x = x.toNat := by
  unfold toUnsigned64
  omega

theorem ofUnsigned64_toNat {x : Int} (h0 : 0 ≤ x) (h : x < 2 ^ 63) :
    ofUnsigned64 x.toNat = x := by
  unfold ofUnsigned64
  split <;> omega

theorem toUnsigned64_ofUnsigned64 {k : Nat} (h : k < 2 ^ 64) :
    toUnsigned64 (ofUnsigned64 k) = k := by
  unfold toUnsigned64 ofUnsigned64
  split <;> omega

theorem nat_lor_and_self (x m : Nat) : (x ||| m) &&& m = m := by
  apply Nat.eq_of_testBit_eq
  intro i
  rw [Nat.testBit_land, Nat.testBit_lor]
  cases hx : x.testBit i <;> cases hm : m.testBit i <;> rfl

theorem nat_lor_lt {x m : Nat} (n : Nat) (hx : x < 2 ^ n) (hm : m < 2 ^ n) :
    (x ||| m) < 2 ^ n := by
  apply Nat.lt_pow_two_of_testBit
  intro i hi
  rw [Nat.testBit_lor]
  rw [Nat.testBit_lt_two_pow (lt_of_lt_of_le hx (Nat.pow_le_pow_right (by omega) hi))]
  rw [Nat.testBit_lt_two_pow (lt_of_lt_of_le hm (Nat.pow_le_pow_right (by omega) hi))]
  rfl

theorem nat_lor_and_mask {x : Nat} (n : Nat) (hx : x < 2 ^ n) :
    (x ||| 2 ^ n) &&& (2 ^ n - 1) = x := by
  apply Nat.eq_of_testBit_eq
  intro i
  rw [Nat.testBit_land, Nat.testBit_lor, Nat.testBit_two_pow, Nat.testBit_two_pow_sub_one]
  rcases lt_or_ge i n with h | h
  · have hne : ¬ (n = i) := by omega
    simp [hne, h]
  · have hxi : x.testBit i = false :=
      Nat.testBit_lt_two_pow (lt_of_lt_of_le hx (Nat.pow_le_pow_right (by omega) h))
    have hni : ¬ (i < n) := by omega
    simp [hxi, hni]

/-- ORing any value with an in-range mask and then ANDing with the same
mask gives the mask back, in `int64` semantics. -/
theorem int64And_int64Or_self (x : Int) {m : Int} (hm0 : 0 ≤ m) (hm : m < 2 ^ 63) :
    int64And (int64Or x m) m = m := by
  unfold int64And int64Or
  rw [toUnsigned64_ofUnsigned64 (nat_lor_lt 64 (toUnsigned64_lt x) (toUnsigned64_lt m))]
  rw [nat_lor_and_self]
  rw [toUnsigned64_of_lt hm0 (by omega)]
  exact ofUnsigned64_toNat hm0 hm

/-- For a value below bit 22, setting bit 22 and then masking with the
low 22 bits recovers the value, in `int64` semantics. -/
theorem int64_or_pow_and_mask {x : Int} (hx0 : 0 ≤ x) (hx : x < 2 ^ 22) :
    int64And (int64Or x 0x400000) 0x3FFFFF = x := by
  unfold int64And int64Or
  have hxu : toUnsigned64 x = x.toNat := toUnsigned64_of_lt hx0 (by omega)
  have hmu : toUnsigned64 0x400000 = 2 ^ 22 := by decide
  have hku : toUnsigned64 0x3FFFFF = 2 ^ 22 - 1 := by decide
  rw [hxu, hmu, hku]
  rw [toUnsigned64_ofUnsigned64 (nat_lor_lt 64 (by omega) (by norm_num))]
  rw [nat_lor_and_mask 22 (by omega)]
  exact ofUnsigned64_toNat hx0 (by omega)

/-! ### Script-shape lemmas -/

/-- A canonical data push of a run of 2 to 75 bytes is a one-byte
length opcode followed by the raw data. -/
theorem canonicalDataPush_mid {d : List Nat} (h2 : 2 ≤ d.length)
    (h76 : d.length < 0x4c) : canonicalDataPush d = d.length :: d := by
  unfold canonicalDataPush
  rw [if_neg (by omega), if_neg (by omega), if_neg (by omega), if_pos h76]

theorem buildRedeemScript_ne_nil (a b : List Nat) (tl : Int) :
    buildRedeemScript a b tl ≠ [] := by
  simp [buildRedeemScript, redeemScriptToks, tokBytes]

/-! ### Claim C5 — timelock encoder bit layout -/

/-- C5 counterexample: at `days = 24856` the number of 512-second
intervals (4194450) already occupies bit 22, so the low 22 bits of the
encoding (146) no longer equal `(days*86400) div 512`, refuting the
claim's second equation for that non-negative day count. -/
theorem calculateRelativeTimelock_mask_counterexample :
    int64And (calculateRelativeTimelock 24856) 0x3FFFFF ≠
      Int.tdiv ((24856 : Int) * 86400) 512 := by
  decide

/-- C5 (amended): for all non-negative day counts the encoding ANDed
with `0x400000` is `0x400000`; and whenever the interval count fits
below bit 22 — that is, for `days ≤ 24855` — the encoding ANDed with
`0x3FFFFF` equals `(days*86400) div 512` (truncating division). -/
theorem calculateRelativeTimelock_mask_spec (days : Int) (h0 : 0 ≤ days) :
    int64And (calculateRelativeTimelock days) 0x400000 = 0x400000 ∧
    (days ≤ 24855 →
      int64And (calculateRelativeTimelock days) 0x3FFFFF =
        Int.tdiv (days * 86400) 512) := by
  constructor
  · show int64And
      (int64Or (int64Div (int64Mul (int64Mul (int64Mul days 24) 60) 60) 512) 0x400000)
      0x400000 = 0x400000
    exact int64And_int64Or_self _ (by norm_num) (by norm_num)
  · intro hb
    show int64And
      (int64Or (int64Div (int64Mul (int64Mul (int64Mul days 24) 60) 60) 512) 0x400000)
      0x3FFFFF = Int.tdiv (days * 86400) 512
    have e1 : int64Mul days 24 = days * 24 := by
      unfold int64Mul
      exact wrap64_eq_self (by omega) (by omega)
    have e2 : int64Mul (days * 24) 60 = days * 1440 := by
      unfold int64Mul
      rw [show days * 24 * 60 = days * 1440 by ring]
      exact wrap64_eq_self (by omega) (by omega)
    have e3 : int64Mul (days * 1440) 60 = days * 86400 := by
      unfold int64Mul
      rw [show days * 1440 * 60 = days * 86400 by ring]
      exact wrap64_eq_self (by omega) (by omega)
    have ht : Int.tdiv (days * 86400) 512 = (days * 86400) / 512 :=
      Int.tdiv_eq_ediv (by omega) (by norm_num)
    have e4 : int64Div (days * 86400) 512 = Int.tdiv (days * 86400) 512 := by
      unfold int64Div
      exact wrap64_eq_self (by rw [ht]; omega) (by rw [ht]; omega)
    rw [e1, e2, e3, e4]
    exact int64_or_pow_and_mask (by rw [ht]; omega) (by rw [ht]; omega)

/-- C5 witness: the amended statement instantiated at 180 days. -/
theorem calculateRelativeTimelock_mask_spec_witness :
    int64And (calculateRelativeTimelock 180) 0x400000 = 0x400000 ∧
    int64And (calculateRelativeTimelock 180) 0x3FFFFF =
      Int.tdiv ((180 : Int) * 86400) 512 :=
  ⟨(calculateRelativeTimelock_mask_spec 180 (by norm_num)).1,
   (calculateRelativeTimelock_mask_spec 180 (by norm_num)).2 (by norm_num)⟩

/-! ### Claim C8 — the 180-day encoding -/

/-- C8 counterexample: the encoder applied to 180 days does not yield
`0x407647`; the claim's hexadecimal constant transposes two digits
(`30375 = 0x76A7`, not `0x7647`). -/
theorem calculateRelativeTimelock_180_counterexample :
    calculateRelativeTimelock 180 ≠ 0x407647 := by
  decide

/-- C8 (amended): the encoder applied to 180 days yields
`(180*86400/512) ||| 0x400000 = 30375 ||| 0x400000 = 0x4076A7`
(that is, 4224679). -/
theorem calculateRelativeTimelock_180_value :
    calculateRelativeTimelock 180 = 0x4076A7 ∧
    calculateRelativeTimelock 180 = int64Or (Int.tdiv ((180 : Int) * 86400) 512) 0x400000 ∧
    Int.tdiv ((180 : Int) * 86400) 512 = 30375 := by
  refine ⟨by decide, by decide, by decide⟩

/-! ### Concrete key material (the compressed test keys of the repository) -/

/-- A 33-byte compressed public key (owner), from the repository's tests. -/
def ownerKeyA : List Nat :=
  [0x03, 0x2e, 0x58, 0xd0, 0x8c, 0xa4, 0x5c, 0x7d, 0xa8, 0x7b, 0x2f, 0xc6,
   0x9c, 0x5b, 0x8a, 0x5e, 0x1a, 0x3b, 0x4c, 0x5d, 0x6e, 0x7f, 0x8a, 0x9b,
   0x0c, 0x1d, 0x2e, 0x3f, 0x4a, 0x5b, 0x6c, 0x7d, 0x8e]

/-- A 33-byte compressed public key (inheritor), from the repository's tests. -/
def inheritorKeyB : List Nat :=
  [0x02, 0x4a, 0x5b, 0x6c, 0x7d, 0x8e, 0x9f, 0xa1, 0xb2, 0xc3, 0xd4, 0xe5,
   0xf6, 0x07, 0x18, 0x29, 0x3a, 0x4b, 0x5c, 0x6d, 0x7e, 0x8f, 0x90, 0xa1,
   0xb2, 0xc3, 0xd4, 0xe5, 0xf6, 0x07, 0x18, 0x29, 0x3a]

/-! ### Claim C1 — locking-script byte layout -/

/-- C1: for every pair of 33-byte public keys and every encoded
timelock, `buildRedeemScript` yields exactly OP_IF, the pushed owner
key, OP_CHECKSIG, OP_ELSE, the script-number push of the timelock,
OP_CHECKSEQUENCEVERIFY, OP_DROP, the pushed inheritor key, OP_CHECKSIG,
OP_ENDIF; it begins with 0x63, ends with 0x68, contains both keys as
contiguous byte runs, and at the opcode level has exactly one
OP_CHECKSIG per branch and exactly one OP_CHECKSEQUENCEVERIFY. -/
theorem buildRedeemScript_layout (a b : List Nat) (tl : Int)
    (ha : a.length = 33) (hb : b.length = 33) :
    buildRedeemScript a b tl =
      [0x63] ++ (0x21 :: a) ++ [0xac, 0x67] ++ addInt64Bytes tl ++
        [0xb2, 0x75] ++ (0x21 :: b) ++ [0xac, 0x68] ∧
    (buildRedeemScript a b tl).head? = some 0x63 ∧
    (buildRedeemScript a b tl).getLast? = some 0x68 ∧
    (∃ s t, buildRedeemScript a b tl = s ++ a ++ t) ∧
    (∃ s t, buildRedeemScript a b tl = s ++ b ++ t) ∧
    (redeemScriptToks a b tl).count ScriptTok.opCheckSig = 2 ∧
    ((redeemScriptToks a b tl).takeWhile
      (fun t => decide (t ≠ ScriptTok.opElse))).count ScriptTok.opCheckSig = 1 ∧
    ((redeemScriptToks a b tl).dropWhile
      (fun t => decide (t ≠ ScriptTok.opElse))).count ScriptTok.opCheckSig = 1 ∧
    (redeemScriptToks a b tl).count ScriptTok.opCSV = 1 := by
  have pa : canonicalDataPush a = 0x21 :: a := by
    have := canonicalDataPush_mid (d := a) (by omega) (by omega)
    rw [ha] at this
    exact this
  have pb : canonicalDataPush b = 0x21 :: b := by
    have := canonicalDataPush_mid (d := b) (by omega) (by omega)
    rw [hb] at this
    exact this
  have hlay : buildRedeemScript a b tl =
      [0x63] ++ (0x21 :: a) ++ [0xac, 0x67] ++ addInt64Bytes tl ++
        [0xb2, 0x75] ++ (0x21 :: b) ++ [0xac, 0x68] := by
    simp [buildRedeemScript, redeemScriptToks, tokBytes, pa, pb]
  have hconcat : buildRedeemScript a b tl =
      ([0x63, 0x21] ++ a ++ [0xac, 0x67] ++ addInt64Bytes tl ++
        [0xb2, 0x75, 0x21] ++ b ++ [0xac]) ++ [0x68] := by
    rw [hlay]; simp
  refine ⟨hlay, ?_, ?_, ?_, ?_, ?_, ?_, ?_, ?_⟩
  · rw [hlay]; rfl
  · rw [hconcat]; exact List.getLast?_concat _
  · exact ⟨[0x63, 0x21],
      [0xac, 0x67] ++ addInt64Bytes tl ++ [0xb2, 0x75] ++ (0x21 :: b) ++ [0xac, 0x68],
      by rw [hlay]; simp⟩
  · exact ⟨[0x63, 0x21] ++ a ++ [0xac, 0x67] ++ addInt64Bytes tl ++ [0xb2, 0x75, 0x21],
      [0xac, 0x68], by rw [hlay]; simp⟩
  · rfl
  · rfl
  · rfl
  · rfl

/-- C1 witness: the layout evaluated on the repository's test keys and
the 180-day encoding. -/
theorem buildRedeemScript_layout_witness :
    (buildRedeemScript ownerKeyA inheritorKeyB 4224679).head? = some 0x63 ∧
    (buildRedeemScript ownerKeyA inheritorKeyB 4224679).getLast? = some 0x68 :=
  ⟨(buildRedeemScript_layout ownerKeyA inheritorKeyB 4224679
      (by decide) (by decide)).2.1,
   (buildRedeemScript_layout ownerKeyA inheritorKeyB 4224679
      (by decide) (by decide)).2.2.1⟩

/-! ### Claim C7 — script validation -/

/-- C7: `ValidateScript` succeeds exactly when the script bytes are
non-empty, both stored keys are 33 bytes long, and the encoded timelock
is positive; the error reported is `emptyScript` for an empty script,
`invalidKeyLength` for a wrong key length (on a non-empty script), and
`nonPositiveTimelock` for a non-positive timelock (otherwise); equal
keys are no obstacle, and a zero-day contract — whose encoded timelock
is `0x400000 > 0` — validates successfully. -/
theorem ValidateScript_spec (s : InheritanceScript) :
    (ValidateScript s = Except.ok () ↔
      s.redeemScript ≠ [] ∧ s.ownerPubKey.length = 33 ∧
      s.inheritorPubKey.length = 33 ∧ 0 < s.relativeTimelock) ∧
    (s.redeemScript = [] →
      ValidateScript s = Except.error ScriptValidationError.emptyScript) ∧
    (s.redeemScript ≠ [] →
      (s.ownerPubKey.length ≠ 33 ∨ s.inheritorPubKey.length ≠ 33) →
      ValidateScript s = Except.error ScriptValidationError.invalidKeyLength) ∧
    (s.redeemScript ≠ [] → s.ownerPubKey.length = 33 →
      s.inheritorPubKey.length = 33 → s.relativeTimelock ≤ 0 →
      ValidateScript s = Except.error ScriptValidationError.nonPositiveTimelock) ∧
    (∀ a b : List Nat, a.length = 33 → b.length = 33 →
      ValidateScript (NewInheritanceScript a b 0) = Except.ok ()) := by
  refine ⟨?_, ?_, ?_, ?_, ?_⟩
  · constructor
    · intro h
      unfold ValidateScript at h
      split_ifs at h with h1 h2 h3 h4
      exact ⟨by simpa [List.length_eq_zero] using h1, by omega, by omega, by omega⟩
    · rintro ⟨hne, ho, hi, htl⟩
      unfold ValidateScript
      rw [if_neg (by simpa [List.length_eq_zero] using hne), if_neg (by omega),
        if_neg (by omega), if_neg (by omega)]
  · intro h
    unfold ValidateScript
    rw [if_pos (by simp [h])]
  · intro hne hk
    unfold ValidateScript
    rw [if_neg (by simpa [List.length_eq_zero] using hne)]
    by_cases ho : s.ownerPubKey.length = 33
    · rw [if_neg (by omega)]
      have hi : s.inheritorPubKey.length ≠ 33 := by tauto
      rw [if_pos hi]
    · rw [if_pos ho]
  · intro hne ho hi htl
    unfold ValidateScript
    rw [if_neg (by simpa [List.length_eq_zero] using hne), if_neg (by omega),
      if_neg (by omega), if_pos htl]
  · intro a b ha hb
    unfold ValidateScript
    have hne : (NewInheritanceScript a b 0).redeemScript ≠ [] :=
      buildRedeemScript_ne_nil a b (calculateRelativeTimelock 0)
    rw [if_neg (by simpa [List.length_eq_zero] using hne)]
    have ho : (NewInheritanceScript a b 0).ownerPubKey.length = 33 := ha
    have hi : (NewInheritanceScript a b 0).inheritorPubKey.length = 33 := hb
    rw [if_neg (by omega), if_neg (by omega)]
    have htl : (NewInheritanceScript a b 0).relativeTimelock = 0x400000 := by
      show calculateRelativeTimelock 0 = 0x400000
      decide
    rw [if_neg (by omega)]

/-- C7 witness: a zero-day contract over the repository's test keys
validates successfully. -/
theorem ValidateScript_spec_witness :
    ValidateScript (NewInheritanceScript ownerKeyA inheritorKeyB 0) = Except.ok () :=
  (ValidateScript_spec (NewInheritanceScript ownerKeyA inheritorKeyB 0)).2.2.2.2
    ownerKeyA inheritorKeyB (by decide) (by decide)

/-! ### Concrete transaction artifacts -/

/-- A funded contract UTXO worth 1000 satoshis. -/
def utxoC : UTXO :=
  { txHash := List.replicate 32 0, vout := 0, amount := 1000, pkScript := [] }

/-- The same outpoint carrying the largest `int64` amount. -/
def utxoMax : UTXO :=
  { txHash := List.replicate 32 0, vout := 0, amount := 9223372036854775807,
    pkScript := [] }

/-- An arbitrary destination output script. -/
def destC : List Nat := [0x6a]

/-- The owner withdraw transaction built from `utxoC` with fee 1. -/
def ownerTxW : MsgTx :=
  { version := 1
    txIn := [{ previousOutPoint := { hash := List.replicate 32 0, index := 0 }
               signatureScript := []
               witness := []
               sequence := 0xffffffff }]
    txOut := [{ value := 999, pkScript := destC }]
    lockTime := 0 }

/-- The inheritor withdraw transaction built from `utxoC` with fee 1 and
encoded timelock 5. -/
def inheritorTxW : MsgTx :=
  { version := 1
    txIn := [{ previousOutPoint := { hash := List.replicate 32 0, index := 0 }
               signatureScript := []
               witness := []
               sequence := 5 }]
    txOut := [{ value := 999, pkScript := destC }]
    lockTime := 0 }

/-! ### Claim C4 — sequence fields of the two builders -/

/-- C4 counterexample: the inheritor builder truncates the supplied
`int64` timelock to 32 bits, so with encoded timelock `2^32` the built
input's sequence is 0, not the supplied value. -/
theorem BuildInheritorWithdrawTx_sequence_counterexample :
    (BuildInheritorWithdrawTx 1 utxoC destC [] 4294967296).map
      (fun tx => tx.txIn.map TxIn.sequence) = Except.ok [0] ∧
    ((0 : Int) ≠ 4294967296) :=
  ⟨rfl, by decide⟩

/-- C4 (amended): on success the inheritor builder's single input
carries sequence `uint32(encodedTimelock)` — equal to the supplied
timelock exactly when that value fits in 32 bits — and the owner
builder's single input carries sequence `0xffffffff`, whose bit 31 (the
BIP-68 disable flag) is set, so no relative-lock check is triggered. -/
theorem build_sequence_spec (fee : Int) (u : UTXO) (dest rs : List Nat) (tl : Int) :
    (∀ tx, BuildInheritorWithdrawTx fee u dest rs tl = Except.ok tx →
      tx.txIn.map TxIn.sequence = [uint32Of tl]) ∧
    (0 ≤ tl → tl < 2 ^ 32 → ((uint32Of tl : Nat) : Int) = tl) ∧
    (∀ tx, BuildOwnerWithdrawTx fee u dest rs = Except.ok tx →
      tx.txIn.map TxIn.sequence = [maxTxInSequenceNum] ∧
      Nat.testBit maxTxInSequenceNum 31 = true) := by
  refine ⟨?_, ?_, ?_⟩
  · intro tx h
    simp only [BuildInheritorWithdrawTx] at h
    split at h
    · simp at h
    · simp only [Except.ok.injEq] at h
      subst h
      rfl
  · intro h1 h2
    unfold uint32Of
    omega
  · intro tx h
    simp only [BuildOwnerWithdrawTx] at h
    split at h
    · simp at h
    · simp only [Except.ok.injEq] at h
      subst h
      exact ⟨rfl, by decide⟩

/-- C4 witness: the amended statement evaluated at fee 1, the concrete
UTXO and encoded timelock 5. -/
theorem build_sequence_spec_witness :
    inheritorTxW.txIn.map TxIn.sequence = [uint32Of 5] ∧
    ((uint32Of 5 : Nat) : Int) = 5 ∧
    ownerTxW.txIn.map TxIn.sequence = [maxTxInSequenceNum] :=
  ⟨(build_sequence_spec 1 utxoC destC [] 5).1 inheritorTxW rfl,
   (build_sequence_spec 1 utxoC destC [] 5).2.1 (by decide) (by decide),
   ((build_sequence_spec 1 utxoC destC [] 5).2.2 ownerTxW rfl).1⟩

/-! ### Claim C6 — insufficient-funds behaviour of the builders -/

/-- C6 counterexample: Go's `int64` subtraction wraps, so with the
maximal `int64` funding value and fee `-2` the difference overflows to
a non-positive value and the owner builder reports insufficient funds
even though the fee is smaller than the funding value. -/
theorem BuildOwnerWithdrawTx_funds_counterexample :
    BuildOwnerWithdrawTx (-2) utxoMax destC [] =
      Except.error TxBuildError.insufficientFunds ∧
    ((-2 : Int) < utxoMax.amount) :=
  ⟨rfl, by decide⟩

/-- C6 (amended): whenever the true difference `amount - fee` does not
overflow `int64`, both builders fail with insufficient funds exactly
when `fee ≥ amount` and otherwise succeed with the single output value
`amount - fee`; in particular with funding 1000 a fee of 1000 fails and
a fee of 999 succeeds with output value 1. -/
theorem build_funds_spec (fee : Int) (u : UTXO) (dest rs : List Nat) (tl : Int)
    (hlo : -(2 ^ 63) ≤ u.amount - fee) (hhi : u.amount - fee < 2 ^ 63) :
    (fee ≥ u.amount →
      BuildOwnerWithdrawTx fee u dest rs = Except.error TxBuildError.insufficientFunds ∧
      BuildInheritorWithdrawTx fee u dest rs tl = Except.error TxBuildError.insufficientFunds) ∧
    (fee < u.amount →
      (BuildOwnerWithdrawTx fee u dest rs).map (fun tx => tx.txOut.map TxOut.value) =
        Except.ok [u.amount - fee] ∧
      (BuildInheritorWithdrawTx fee u dest rs tl).map (fun tx => tx.txOut.map TxOut.value) =
        Except.ok [u.amount - fee]) ∧
    BuildOwnerWithdrawTx 1000 utxoC destC [] = Except.error TxBuildError.insufficientFunds ∧
    (BuildOwnerWithdrawTx 999 utxoC destC []).map (fun tx => tx.txOut.map TxOut.value) =
      Except.ok [1] := by
  have hsub : int64Sub u.amount fee = u.amount - fee := by
    unfold int64Sub
    exact wrap64_eq_self hlo hhi
  refine ⟨?_, ?_, rfl, rfl⟩
  · intro hge
    constructor
    · simp only [BuildOwnerWithdrawTx]
      rw [hsub, if_pos (by omega)]
    · simp only [BuildInheritorWithdrawTx]
      rw [hsub, if_pos (by omega)]
  · intro hlt
    constructor
    · simp only [BuildOwnerWithdrawTx]
      rw [hsub, if_neg (by omega)]
      rfl
    · simp only [BuildInheritorWithdrawTx]
      rw [hsub, if_neg (by omega)]
      rfl

/-- C6 witness: the amended statement evaluated at funding 1000 with
fees 999 and 1000. -/
theorem build_funds_spec_witness :
    (BuildOwnerWithdrawTx 999 utxoC destC []).map (fun tx => tx.txOut.map TxOut.value) =
      Except.ok [1] ∧
    BuildOwnerWithdrawTx 1000 utxoC destC [] =
      Except.error TxBuildError.insufficientFunds :=
  ⟨((build_funds_spec 999 utxoC destC [] 0 (by decide) (by decide)).2.1 (by decide)).1,
   ((build_funds_spec 1000 utxoC destC [] 0 (by decide) (by decide)).1 (by decide)).1⟩

/-! ### Stub hash and signature primitives for concrete witnesses -/

/-- A stand-in SHA-256: constant 32-byte output. -/
def sha256Stub : List Nat → List Nat := fun _ => List.replicate 32 1

/-- A stand-in RIPEMD-160: constant 20-byte output. -/
def ripemd160Stub : List Nat → List Nat := fun _ => List.replicate 20 2

/-- A stand-in BIP-143 digest: constant 32-byte output. -/
def sigHashFnStub : List Nat → MsgTx → Nat → Int → List Nat :=
  fun _ _ _ _ => List.replicate 32 3

/-- A stand-in deterministic ECDSA signer: constant DER blob. -/
def ecdsaSignStub : List Nat → List Nat → List Nat := fun _ _ => [0x30, 0x06]

/-- The contract script built from the repository's test keys with a
180-day timelock. -/
def contractC : InheritanceScript := NewInheritanceScript ownerKeyA inheritorKeyB 180

/-! ### Claim C2 — the previous-output script used by the signers -/

/-- C2: the script both signers register as the previous output's
script is the 22-byte `[0x00, 0x14, hash160(redeemScript)]`, not the
commitment's 34-byte `spendScript = [0x00, 0x20, sha256(redeemScript)]`;
the two always differ. -/
theorem signerPrevOutScript_ne_spendScript (sha256 ripemd160 : List Nat → List Nat)
    (rs : List Nat) (h20 : (ripemd160 (sha256 rs)).length = 20)
    (h32 : (sha256 rs).length = 32) (s : InheritanceScript)
    (hrs : s.redeemScript = rs) :
    (signerPrevOutScript sha256 ripemd160 rs).length = 22 ∧
    (GetScriptPubKey sha256 s).length = 34 ∧
    signerPrevOutScript sha256 ripemd160 rs ≠ GetScriptPubKey sha256 s := by
  have p1 : canonicalDataPush (ripemd160 (sha256 rs)) = 20 :: ripemd160 (sha256 rs) := by
    have := canonicalDataPush_mid (d := ripemd160 (sha256 rs)) (by omega) (by omega)
    rw [h20] at this
    exact this
  have p2 : canonicalDataPush (sha256 rs) = 32 :: sha256 rs := by
    have := canonicalDataPush_mid (d := sha256 rs) (by omega) (by omega)
    rw [h32] at this
    exact this
  have l1 : (signerPrevOutScript sha256 ripemd160 rs).length = 22 := by
    unfold signerPrevOutScript hash160
    rw [p1]
    simp [h20]
  have l2 : (GetScriptPubKey sha256 s).length = 34 := by
    unfold GetScriptPubKey GetScriptHash
    rw [hrs, p2]
    simp [h32]
  refine ⟨l1, l2, ?_⟩
  intro hcontra
  rw [hcontra, l2] at l1
  exact absurd l1 (by norm_num)

/-- C2 witness: the mismatch evaluated on the concrete 180-day contract
with the stub hash primitives. -/
theorem signerPrevOutScript_ne_spendScript_witness :
    signerPrevOutScript sha256Stub ripemd160Stub contractC.redeemScript ≠
      GetScriptPubKey sha256Stub contractC :=
  (signerPrevOutScript_ne_spendScript sha256Stub ripemd160Stub
    contractC.redeemScript (by decide) (by decide) contractC rfl).2.2

/-! ### Frame behaviour of `setFirstWitness` -/

theorem setFirstWitness_frame (tx : MsgTx) (w : List (List Nat)) :
    (setFirstWitness tx w).version = tx.version ∧
    (setFirstWitness tx w).lockTime = tx.lockTime ∧
    (setFirstWitness tx w).txOut = tx.txOut ∧
    (setFirstWitness tx w).txIn.map
        (fun i => (i.previousOutPoint, i.signatureScript, i.sequence)) =
      tx.txIn.map (fun i => (i.previousOutPoint, i.signatureScript, i.sequence)) ∧
    (setFirstWitness tx w).txIn.tail = tx.txIn.tail := by
  unfold setFirstWitness
  refine ⟨rfl, rfl, rfl, ?_, ?_⟩ <;>
    rcases htx : tx.txIn with _ | ⟨hd, tl⟩ <;> simp [htx]

/-! ### Claim C3 — assembled witness stacks -/

/-- C3: on success each signer installs on input 0 a witness stack of
exactly three elements — the signature with the appended sighash byte,
the branch selector, and the locking script — but the selector element
is the single byte `0x51` (the OP_1 opcode value) on the owner path and
the single byte `0x00` on the inheritor path, neither of which is the
minimal encoding (`[0x01]` / the empty run) the claim describes. -/
theorem sign_witness_stacks (sha256 ripemd160 : List Nat → List Nat)
    (sigHashFn : List Nat → MsgTx → Nat → Int → List Nat)
    (ecdsaSign : List Nat → List Nat → List Nat)
    (tx : MsgTx) (u : UTXO) (rs privO privI : List Nat) :
    (∀ tx', SignOwnerTransaction sha256 ripemd160 sigHashFn ecdsaSign
        tx u rs privO = Except.ok tx' →
      tx'.txIn.head?.map TxIn.witness =
        some [ecdsaSign privO (sigHashFn rs tx 0 u.amount) ++ [sigHashAll], [0x51], rs] ∧
      tx'.txIn.head?.map (fun i => i.witness.length) = some 3 ∧
      (([0x51] : List Nat) ≠ [0x01])) ∧
    (∀ tx', SignInheritorTransaction sha256 ripemd160 sigHashFn ecdsaSign
        tx u rs privI = Except.ok tx' →
      tx'.txIn.head?.map TxIn.witness =
        some [ecdsaSign privI (sigHashFn rs tx 0 u.amount) ++ [sigHashAll], [0x00], rs] ∧
      tx'.txIn.head?.map (fun i => i.witness.length) = some 3 ∧
      (([0x00] : List Nat) ≠ ([] : List Nat))) := by
  constructor
  · intro tx' h
    unfold SignOwnerTransaction CalcWitnessSigHash at h
    split at h
    · simp at h
    · rename_i hlen
      simp only [Except.ok.injEq] at h
      subst h
      unfold setFirstWitness
      rcases htx : tx.txIn with _ | ⟨hd, tl⟩
      · rw [htx] at hlen
        simp at hlen
      · rw [htx] at hlen
        simp at hlen
        subst hlen
        exact ⟨by simp [htx], by simp [htx], by decide⟩
  · intro tx' h
    unfold SignInheritorTransaction CalcWitnessSigHash at h
    split at h
    · simp at h
    · rename_i hlen
      simp only [Except.ok.injEq] at h
      subst h
      unfold setFirstWitness
      rcases htx : tx.txIn with _ | ⟨hd, tl⟩
      · rw [htx] at hlen
        simp at hlen
      · rw [htx] at hlen
        simp at hlen
        subst hlen
        exact ⟨by simp [htx], by simp [htx], by decide⟩

/-- C3 witness: the owner-path witness stack evaluated on the concrete
one-input transaction with the stub primitives. -/
theorem sign_witness_stacks_witness :
    (setFirstWitness ownerTxW
        [[0x30, 0x06, 0x01], [0x51], [0x63]]).txIn.head?.map TxIn.witness =
      some [ecdsaSignStub [] (sigHashFnStub [0x63] ownerTxW 0 utxoC.amount) ++
              [sigHashAll], [0x51], [0x63]] ∧
    (([0x51] : List Nat) ≠ [0x01]) :=
  ⟨((sign_witness_stacks sha256Stub ripemd160Stub sigHashFnStub ecdsaSignStub
      ownerTxW utxoC [0x63] [] []).1
      (setFirstWitness ownerTxW [[0x30, 0x06, 0x01], [0x51], [0x63]]) rfl).1,
   ((sign_witness_stacks sha256Stub ripemd160Stub sigHashFnStub ecdsaSignStub
      ownerTxW utxoC [0x63] [] []).1
      (setFirstWitness ownerTxW [[0x30, 0x06, 0x01], [0x51], [0x63]]) rfl).2.2⟩

/-! ### Claim C10 — signing touches only the first input's witness -/

/-- C10: on success each signer leaves the transaction's version, lock
time, outputs, every input's outpoint, signature script and sequence,
and every non-first input unchanged; only the first input's witness
stack is replaced. -/
theorem sign_frame_spec (sha256 ripemd160 : List Nat → List Nat)
    (sigHashFn : List Nat → MsgTx → Nat → Int → List Nat)
    (ecdsaSign : List Nat → List Nat → List Nat)
    (tx : MsgTx) (u : UTXO) (rs privO privI : List Nat) :
    (∀ tx', SignOwnerTransaction sha256 ripemd160 sigHashFn ecdsaSign
        tx u rs privO = Except.ok tx' →
      tx'.version = tx.version ∧ tx'.lockTime = tx.lockTime ∧
      tx'.txOut = tx.txOut ∧
      tx'.txIn.map (fun i => (i.previousOutPoint, i.signatureScript, i.sequence)) =
        tx.txIn.map (fun i => (i.previousOutPoint, i.signatureScript, i.sequence)) ∧
      tx'.txIn.tail = tx.txIn.tail) ∧
    (∀ tx', SignInheritorTransaction sha256 ripemd160 sigHashFn ecdsaSign
        tx u rs privI = Except.ok tx' →
      tx'.version = tx.version ∧ tx'.lockTime = tx.lockTime ∧
      tx'.txOut = tx.txOut ∧
      tx'.txIn.map (fun i => (i.previousOutPoint, i.signatureScript, i.sequence)) =
        tx.txIn.map (fun i => (i.previousOutPoint, i.signatureScript, i.sequence)) ∧
      tx'.txIn.tail = tx.txIn.tail) := by
  constructor
  · intro tx' h
    unfold SignOwnerTransaction CalcWitnessSigHash at h
    split at h
    · simp at h
    · simp only [Except.ok.injEq] at h
      subst h
      exact setFirstWitness_frame tx _
  · intro tx' h
    unfold SignInheritorTransaction CalcWitnessSigHash at h
    split at h
    · simp at h
    · simp only [Except.ok.injEq] at h
      subst h
      exact setFirstWitness_frame tx _

/-- C10 witness: the frame property evaluated on the concrete one-input
transaction with the stub primitives. -/
theorem sign_frame_spec_witness :
    (setFirstWitness ownerTxW [[0x30, 0x06, 0x01], [0x51], [0x63]]).txOut =
      ownerTxW.txOut ∧
    (setFirstWitness ownerTxW [[0x30, 0x06, 0x01], [0x51], [0x63]]).txIn.map
        (fun i => (i.previousOutPoint, i.signatureScript, i.sequence)) =
      ownerTxW.txIn.map (fun i => (i.previousOutPoint, i.signatureScript, i.sequence)) :=
  ⟨((sign_frame_spec sha256Stub ripemd160Stub sigHashFnStub ecdsaSignStub
      ownerTxW utxoC [0x63] [] []).1
      (setFirstWitness ownerTxW [[0x30, 0x06, 0x01], [0x51], [0x63]]) rfl).2.2.1,
   ((sign_frame_spec sha256Stub ripemd160Stub sigHashFnStub ecdsaSignStub
      ownerTxW utxoC [0x63] [] []).1
      (setFirstWitness ownerTxW [[0x30, 0x06, 0x01], [0x51], [0x63]]) rfl).2.2.2.1⟩

/-! ### Claim C9 — transaction validation -/

/-- A transaction whose outputs are 5 and -3: one output is negative
while the summed output value is positive. -/
def txMixedOutputs : MsgTx :=
  { version := 1
    txIn := [{ previousOutPoint := { hash := List.replicate 32 0, index := 0 }
               signatureScript := []
               witness := []
               sequence := 0xffffffff }]
    txOut := [{ value := 5, pkScript := [] }, { value := -3, pkScript := [] }]
    lockTime := 0 }

/-- C9 counterexample: `ValidateTransaction` sums the output values and
only rejects a negative sum, so a transaction with outputs 5 and -3 —
which contains a negative output — passes validation. -/
theorem ValidateTransaction_counterexample :
    ValidateTransaction (some txMixedOutputs) = Except.ok () ∧
    txMixedOutputs.txOut.map TxOut.value = [5, -3] ∧
    ((-3 : Int) < 0) :=
  ⟨rfl, rfl, by decide⟩

/-- C9 (amended): validation fails on a nil transaction, on missing
inputs, on missing outputs, and with `negativeOutputValue` exactly when
the `int64` sum of all output values is negative; it succeeds
otherwise. -/
theorem ValidateTransaction_spec (tx : MsgTx) :
    ValidateTransaction none = Except.error TxValidationError.nilTransaction ∧
    (tx.txIn = [] →
      ValidateTransaction (some tx) = Except.error TxValidationError.noInputs) ∧
    (tx.txIn ≠ [] → tx.txOut = [] →
      ValidateTransaction (some tx) = Except.error TxValidationError.noOutputs) ∧
    (tx.txIn ≠ [] → tx.txOut ≠ [] → sumOutputValues tx < 0 →
      ValidateTransaction (some tx) = Except.error TxValidationError.negativeOutputValue) ∧
    (tx.txIn ≠ [] → tx.txOut ≠ [] → 0 ≤ sumOutputValues tx →
      ValidateTransaction (some tx) = Except.ok ()) := by
  refine ⟨rfl, ?_, ?_, ?_, ?_⟩
  · intro h
    simp only [ValidateTransaction]
    rw [if_pos (by simp [h])]
  · intro hi ho
    simp only [ValidateTransaction]
    rw [if_neg (by simpa [List.length_eq_zero] using hi), if_pos (by simp [ho])]
  · intro hi ho hs
    simp only [ValidateTransaction]
    rw [if_neg (by simpa [List.length_eq_zero] using hi),
      if_neg (by simpa [List.length_eq_zero] using ho), if_pos hs]
  · intro hi ho hs
    simp only [ValidateTransaction]
    rw [if_neg (by simpa [List.length_eq_zero] using hi),
      if_neg (by simpa [List.length_eq_zero] using ho), if_neg (by omega)]

/-- C9 witness: the success case evaluated on the mixed-output
transaction, whose summed output value is 2. -/
theorem ValidateTransaction_spec_witness :
    ValidateTransaction (some txMixedOutputs) = Except.ok () :=
  (ValidateTransaction_spec txMixedOutputs).2.2.2.2
    (by decide) (by decide) (by decide)

end BitcoinInheritance
